import Mathlib

/-!
# Verification of the `SeaMotion` React component

This file gives a shallow embedding of `src/index.tsx` of the
`react-sea-motion` package and settles the specification claims against it.

The embedding has two parts.

1. An event-loop model of the component lifecycle (refs, React state,
   pending `requestAnimationFrame` handles, pending `setTimeout` timers,
   pending image-load promises, and the React commit/effect machinery).
   Every function mirrors one function or hook of the source file; line
   numbers refer to `src/index.tsx` (the file `src/unnamed/part_001`).

   React semantics captured by the model, as fixed by the source's
   dependency arrays:
   * `render` is a `useCallback` with deps `[speed, intensity, isAnimating]`
     (line 318), so its identity changes whenever `isAnimating` changes,
     and the closure invoked by a pending frame callback reads the
     `isAnimating` value captured when that closure was created.
   * `initializeEffect` is a `useCallback` whose deps include `render` and
     `duration` (line 361), so its identity changes with them.
   * the first `useEffect` (line 363) has deps `[src, initializeEffect]`;
     the second (line 378) has deps
     `[speed, intensity, duration, isLoaded, render, ...]` (the remaining
     deps are stable `useCallback`s / props).  A committed change of
     `isAnimating` or `isLoaded` therefore re-runs the effects, which the
     model plays through `commitCascade`.
   * `setState` on an unmounted component does not re-render, and DOM refs
     (`canvasRef`, `containerRef`) are null after unmount, while plain refs
     (`glRef`, `textureRef`, ...) keep their values.

2. The fragment-shader mathematics (lines 54-136) as functions over `ℚ`
   (the cover-fit remap, which is exact rational arithmetic) and over `ℝ`
   (the noise/wave field, which uses `sin`, `floor` and `fract`).
-/

/-- The component's configuration props (lines 3-28).  `src` is an opaque
image identifier (the model never inspects the URL text); `duration` is in
seconds and `none` when the prop is absent — it is modelled at
whole-second granularity (`ℤ`), which every claim stays within, and the
model multiplies it by 1000 exactly where the source does. -/
structure Props where
  src : Option Nat
  speed : ℚ
  intensity : ℚ
  duration : Option ℤ
  deriving Repr, DecidableEq

/-- The error messages the component can store in its `error` state
(lines 228, 176, 332 of the source). -/
inductive ErrKind
  | loadFailed
  | webglUnsupported
  | textureFailed
  deriving Repr, DecidableEq

/-- The message text of each error, exactly the strings of the source. -/
def errText : ErrKind → String
  | ErrKind.loadFailed => "Failed to load image"
  | ErrKind.webglUnsupported => "WebGL not supported"
  | ErrKind.textureFailed => "Failed to create texture"

/-- One component instance together with the browser scheduler state.

Scheduler: `pendingFrames` are the pending `requestAnimationFrame`
callbacks, each with the `isAnimating` value captured by the `render`
closure that scheduled it; `pendingTimers` are pending `setTimeout`
callbacks with their fire time (ms); `pendingLoads` are in-flight
`loadImage` promises, each with the `duration` and the `render`-closure
`isAnimating` captured by the `initializeEffect` call that created it
(FIFO settlement).  `nextId` hands out fresh nonzero handle ids.

Refs (lines 30-37): `animationRef`, `timerRef`, `startTimeRef`,
`textureRef`, `programRef`; `glOk` models `glRef.current ≠ null`.

React state (lines 39-41): `isLoaded`, `errState`, `isAnimating`;
`mounted` models the DOM refs being attached.

Observations: `onLoadCount`, `onErrorCount`, `onAnimationEndCount` count
the notifications delivered to the caller; `drawEvents` records the time
of every `gl.drawArrays` submission; `compileCount` counts the
shader-compile/program-link passes run against the (single) GL context;
`liveTextures` counts textures created by `gl.createTexture` and never
deleted (the source contains no `deleteTexture` call). -/
structure World where
  props : Props
  now : ℤ
  nextId : Nat
  pendingFrames : List (Nat × Bool)
  pendingTimers : List (Nat × ℤ)
  pendingLoads : List (Option ℤ × Bool)
  animationRef : Option Nat
  timerRef : Option Nat
  startTimeRef : ℤ
  textureRef : Option Nat
  programRef : Option Nat
  glOk : Bool
  isLoaded : Bool
  errState : Option ErrKind
  isAnimating : Bool
  mounted : Bool
  onLoadCount : Nat
  onErrorCount : Nat
  onAnimationEndCount : Nat
  drawEvents : List ℤ
  compileCount : Nat
  liveTextures : Nat
  deriving Repr, DecidableEq

/-- `cancelAnimationFrame h`: remove handle `h` from the pending frame
callbacks (a no-op when `h` is not pending, as in the browser). -/
def cancelFrame (h : Nat) (w : World) : World :=
  { w with pendingFrames := w.pendingFrames.filter (fun q => q.1 != h) }

/-- `clearTimeout h`: remove timer `h` from the pending timers
(a no-op when `h` is not pending). -/
def cancelTimer (h : Nat) (w : World) : World :=
  { w with pendingTimers := w.pendingTimers.filter (fun q => q.1 != h) }

/-- `stopAnimation` (lines 269-279): cancel the pending frame handle and
null the ref, clear the pending duration timer and null the ref, then
`setIsAnimating(false)`. -/
def stopAnimation (w : World) : World :=
  let w1 := match w.animationRef with
    | some h => { (cancelFrame h w) with animationRef := none }
    | none => w
  let w2 := match w1.timerRef with
    | some h => { (cancelTimer h w1) with timerRef := none }
    | none => w1
  { w2 with isAnimating := false }

/-- `render` (lines 281-318).  `cap` is the `isAnimating` value captured by
this closure (its `useCallback` dep, line 318).  The body returns early
unless the GL context, program, texture and canvas are present and the
captured `isAnimating` is true (line 288); otherwise it submits one draw
call and schedules itself as the next frame callback (line 317) — the
re-scheduled closure is the same one, so it carries the same captured
`isAnimating`. -/
def render (cap : Bool) (w : World) : World :=
  if w.glOk && w.programRef.isSome && w.textureRef.isSome && w.mounted && cap then
    { w with
      drawEvents := w.drawEvents ++ [w.now],
      pendingFrames := w.pendingFrames ++ [(w.nextId, cap)],
      animationRef := some w.nextId,
      nextId := w.nextId + 1 }
  else w

/-- The duration-timer callback (lines 344-347 and 396-399):
`stopAnimation()` then `onAnimationEnd?.()`. -/
def durationTimerCallback (w : World) : World :=
  { (stopAnimation w) with onAnimationEndCount := w.onAnimationEndCount + 1 }

/-- Body of the second `useEffect` (lines 378-404): if `isLoaded` (read
from the committed snapshot `snapLoaded`) and `textureRef.current` (a live
ref), cancel the pending frame (without nulling `animationRef`, line 383),
clear and null the pending duration timer (lines 386-387),
`setIsAnimating(true)`, reset `startTimeRef` to now (line 392), arm a new
duration timer when `duration > 0` (lines 395-400), and call the captured
`render` closure (line 402), whose captured `isAnimating` is `cap`. -/
def restartEffectBody (cap snapLoaded : Bool) (w : World) : World :=
  if snapLoaded && w.textureRef.isSome then
    let w1 := match w.animationRef with
      | some h => cancelFrame h w
      | none => w
    let w2 := match w1.timerRef with
      | some h => { (cancelTimer h w1) with timerRef := none }
      | none => w1
    let w3 := { w2 with isAnimating := true, startTimeRef := w2.now }
    let w4 := match w3.props.duration with
      | some d =>
        if 0 < d then
          { w3 with
            pendingTimers := w3.pendingTimers ++ [(w3.nextId, w3.now + d * 1000)],
            timerRef := some w3.nextId,
            nextId := w3.nextId + 1 }
        else w3
      | none => w3
    render cap w4
  else w

/-- The synchronous prefix of `initializeEffect` (lines 320-325):
`setError(null)`, then `initWebGL()` (lines 171-221: acquire the context
— `canvas.getContext('webgl')` returns the same context object on every
call for one canvas — compile both shaders, link the program, store it in
`programRef`; a missing canvas throws `WebGL not supported`, caught at
line 356), then `await loadImage(src)` suspends, recording an in-flight
load whose continuation captured `duration` and the current `render`
closure (captured `isAnimating` = `cap`). -/
def initEffectStage1 (cap : Bool) (w : World) : World :=
  let w1 := { w with errState := none }
  if w1.mounted then
    let w2 := { w1 with
      glOk := true,
      compileCount := w1.compileCount + 1,
      programRef := some w1.nextId,
      nextId := w1.nextId + 1 }
    { w2 with pendingLoads := w2.pendingLoads ++ [(w2.props.duration, cap)] }
  else
    { w1 with
      errState := some ErrKind.webglUnsupported,
      onErrorCount := w1.onErrorCount + 1 }

/-- The continuation of `initializeEffect` after `loadImage` resolves
(lines 326-354): write the shared window aspect global (line 326, modelled
separately by `writeGlobalAspect`), `resizeCanvas()` (ref-guarded, no
modelled state), `createTexture` (lines 233-248: returns null only when
the context is missing, in which case line 332 throws, caught at 356) —
note the previous texture is never deleted — then `startTimeRef := now`,
`setIsLoaded(true)`, `setIsAnimating(true)`, `onLoad?.()`, arm the
duration timer when the captured `duration > 0` (lines 343-348, without
clearing any pending timer), cancel a pending frame (lines 351-353) and
call the captured `render` closure. -/
def initEffectResolve (capDur : Option ℤ) (cap : Bool) (w : World) : World :=
  if w.glOk then
    let w1 := { w with
      liveTextures := w.liveTextures + 1,
      textureRef := some w.nextId,
      nextId := w.nextId + 1 }
    let w2 := { w1 with
      startTimeRef := w1.now,
      isLoaded := true,
      isAnimating := true,
      onLoadCount := w1.onLoadCount + 1 }
    let w3 := match capDur with
      | some d =>
        if 0 < d then
          { w2 with
            pendingTimers := w2.pendingTimers ++ [(w2.nextId, w2.now + d * 1000)],
            timerRef := some w2.nextId,
            nextId := w2.nextId + 1 }
        else w2
      | none => w2
    let w4 := match w3.animationRef with
      | some h => cancelFrame h w3
      | none => w3
    render cap w4
  else
    { w with
      errState := some ErrKind.textureFailed,
      onErrorCount := w.onErrorCount + 1 }

/-- Cleanup of the first `useEffect` (lines 368-375): cancel the pending
frame and clear the pending timer; the refs themselves are not nulled. -/
def srcEffectCleanup (w : World) : World :=
  let w1 := match w.animationRef with
    | some h => cancelFrame h w
    | none => w
  match w1.timerRef with
  | some h => cancelTimer h w1
  | none => w1

/-- One post-commit effects pass.  React runs the cleanups of the
re-running effects first (only the first `useEffect` has one), then the
bodies in declaration order.  `capA`/`snapLoaded` are the committed
`isAnimating`/`isLoaded` of the render pass whose closures the effects
use.  The first effect's body calls `initializeEffect` only when `src` is
set (line 364). -/
def effectsPass (runFirst runSecond capA snapLoaded : Bool) (w : World) : World :=
  let w1 := if runFirst then srcEffectCleanup w else w
  let w2 := if runFirst && w1.props.src.isSome then initEffectStage1 capA w1 else w1
  if runSecond then restartEffectBody capA snapLoaded w2 else w2

/-- The React re-render/effect cascade after a state change.  Starting from
the previously committed `isAnimating`/`isLoaded`, while either differs
from the current value the component re-renders, `render` (and hence
`initializeEffect`) gets a new identity whenever `isAnimating` changed, so
the first effect re-runs on an `isAnimating` change and the second on an
`isAnimating` or `isLoaded` change.  The chain stabilises after at most
two rounds because `restartEffectBody` always leaves `isAnimating = true`;
the fuel is an upper bound on the rounds, not a truncation. -/
def commitCascade : Nat → Bool → Bool → World → World
  | 0, _, _, w => w
  | fuel + 1, prevAnim, prevLoaded, w =>
    if !w.mounted then w
    else
      let animChanged := w.isAnimating != prevAnim
      let loadedChanged := w.isLoaded != prevLoaded
      if animChanged || loadedChanged then
        let w2 := effectsPass animChanged (animChanged || loadedChanged)
          w.isAnimating w.isLoaded w
        commitCascade fuel w.isAnimating w.isLoaded w2
      else w

/-- The external events the cooperative scheduler can deliver.  Frame and
timer callbacks are identified by handle; delivering a handle that is not
pending is a no-op (the browser never fires a cancelled handle).
`loadSettle ok` settles the oldest in-flight image load. -/
inductive Ev
  | mount
  | propsChange (p : Props)
  | loadSettle (ok : Bool)
  | timerFire (id : Nat)
  | frameFire (id : Nat)
  | unmount
  deriving Repr, DecidableEq

/-- One scheduler step: deliver event `e` at wall-clock time `t` (ms). -/
def step (w : World) (t : ℤ) (e : Ev) : World :=
  let w := { w with now := t }
  match e with
  | Ev.mount =>
    let w1 := { w with mounted := true }
    let snapA := w1.isAnimating
    let snapL := w1.isLoaded
    let w2 := if w1.props.src.isSome then initEffectStage1 snapA w1 else w1
    let w3 := restartEffectBody snapA snapL w2
    commitCascade 4 snapA snapL w3
  | Ev.propsChange p =>
    if !w.mounted then w
    else
      let old := w.props
      let w1 := { w with props := p }
      let srcChanged := old.src != p.src
      let sidChanged :=
        decide (old.speed ≠ p.speed) || decide (old.intensity ≠ p.intensity)
          || decide (old.duration ≠ p.duration)
      let snapA := w1.isAnimating
      let snapL := w1.isLoaded
      let w2 := effectsPass (srcChanged || sidChanged) sidChanged snapA snapL w1
      commitCascade 4 snapA snapL w2
  | Ev.loadSettle ok =>
    match w.pendingLoads with
    | [] => w
    | (capDur, capA) :: rest =>
      let w1 := { w with pendingLoads := rest }
      if ok then
        let snapA := w1.isAnimating
        let snapL := w1.isLoaded
        let w2 := initEffectResolve capDur capA w1
        if w2.mounted then commitCascade 4 snapA snapL w2 else w2
      else
        { w1 with
          errState := some ErrKind.loadFailed,
          onErrorCount := w1.onErrorCount + 1 }
  | Ev.timerFire id =>
    if w.pendingTimers.any (fun q => q.1 == id) then
      let w1 := cancelTimer id w
      let snapA := w1.isAnimating
      let snapL := w1.isLoaded
      let w2 := durationTimerCallback w1
      if w2.mounted then commitCascade 4 snapA snapL w2 else w2
    else w
  | Ev.frameFire id =>
    match w.pendingFrames.find? (fun q => q.1 == id) with
    | some q => render q.2 (cancelFrame id w)
    | none => w
  | Ev.unmount =>
    let w1 := srcEffectCleanup w
    { w1 with mounted := false }

/-- Run a timestamped event script. -/
def run (w : World) : List (ℤ × Ev) → World
  | [] => w
  | (t, e) :: rest => run (step w t e) rest

/-- The state of a freshly created, not yet mounted instance
(initial `useRef`/`useState` values, lines 30-41). -/
def initWorld (p : Props) : World :=
  { props := p, now := 0, nextId := 1, pendingFrames := [], pendingTimers := [],
    pendingLoads := [], animationRef := none, timerRef := none, startTimeRef := 0,
    textureRef := none, programRef := none, glOk := false, isLoaded := false,
    errState := none, isAnimating := true, mounted := false,
    onLoadCount := 0, onErrorCount := 0, onAnimationEndCount := 0,
    drawEvents := [], compileCount := 0, liveTextures := 0 }

/-- What the component returns (lines 418-437): the error fallback `<div>`
when the `error` state is set, otherwise the canvas surface. -/
inductive ViewOut
  | errorFallback (m : ErrKind)
  | surface
  deriving Repr, DecidableEq

/-- The render output of the component as a function of its state. -/
def view (w : World) : ViewOut :=
  match w.errState with
  | some m => ViewOut.errorFallback m
  | none => ViewOut.surface

/-- Line 326: `(window as any)._seaMotionImageAspect = image.width /
image.height` — every instance's load writes the one shared window slot,
discarding whatever another instance stored there. -/
def writeGlobalAspect (_g : Option ℚ) (width height : ℚ) : Option ℚ :=
  some (width / height)

/-- Line 286: `const imageAspect = (window as any)._seaMotionImageAspect
|| 1.0` — every instance's `render` reads the shared slot, falling back to
`1.0` when it is unset or `0` (JS falsiness). -/
def readGlobalAspect (g : Option ℚ) : ℚ :=
  match g with
  | none => 1
  | some a => if a = 0 then 1 else a

/-!
## The fragment shader (lines 54-136)

The cover-fit remap (lines 99-110) is exact rational arithmetic and is
embedded over `ℚ`; the wave/noise field uses `sin`/`floor`/`fract` and is
embedded over `ℝ`.  GLSL's `fract x` is `x - floor x` and `mix x y a` is
`x + a * (y - x)`.
-/

/-- The cover-fit remap of `main` (lines 99-110) over `ℚ`: the GLSL branch
`if (canAspect > imgAspect)` scales `y` by `imgAspect / canAspect` about
the centre, else it scales `x` by `canAspect / imgAspect`. -/
def coverUV (imgAspect canAspect : ℚ) (uv : ℚ × ℚ) : ℚ × ℚ :=
  if imgAspect < canAspect then
    (uv.1, (uv.2 - 1/2) * (imgAspect / canAspect) + 1/2)
  else
    ((uv.1 - 1/2) * (canAspect / imgAspect) + 1/2, uv.2)

/-- GLSL `fract`: `x - floor x`. -/
noncomputable def fract (x : ℝ) : ℝ := x - ⌊x⌋

/-- `noise` (lines 65-67): `fract(sin(dot(p, vec2(12.9898, 78.233))) *
43758.5453)`. -/
noncomputable def noise (p : ℝ × ℝ) : ℝ :=
  fract (Real.sin (p.1 * 12.9898 + p.2 * 78.233) * 43758.5453)

/-- GLSL `mix x y a = x + a * (y - x)`. -/
noncomputable def glslMix (x y a : ℝ) : ℝ := x + a * (y - x)

/-- `smoothNoise` (lines 69-80): bilinear interpolation of the lattice
hash with the smoothstep ease `f * f * (3 - 2 * f)` on each axis. -/
noncomputable def smoothNoise (p : ℝ × ℝ) : ℝ :=
  let ix : ℝ := ⌊p.1⌋
  let iy : ℝ := ⌊p.2⌋
  let ex := fract p.1 * fract p.1 * (3 - 2 * fract p.1)
  let ey := fract p.2 * fract p.2 * (3 - 2 * fract p.2)
  let a := noise (ix, iy)
  let b := noise (ix + 1, iy)
  let c := noise (ix, iy + 1)
  let d := noise (ix + 1, iy + 1)
  glslMix (glslMix a b ex) (glslMix c d ex) ey

/-- The loop body of `fbm` (lines 82-93): `value += amplitude *
smoothNoise(p * frequency); amplitude *= 0.5; frequency *= 2.0`, four
iterations. -/
noncomputable def fbmAux : Nat → ℝ → ℝ → ℝ → ℝ × ℝ → ℝ
  | 0, value, _, _, _ => value
  | n + 1, value, amplitude, frequency, p =>
    fbmAux n (value + amplitude * smoothNoise (p.1 * frequency, p.2 * frequency))
      (amplitude * 0.5) (frequency * 2) p

/-- `fbm` (lines 82-93): 4 octaves starting from `value = 0`,
`amplitude = 0.5`, `frequency = 1`. -/
noncomputable def fbm (p : ℝ × ℝ) : ℝ := fbmAux 4 0 0.5 1 p

/-- The cover-fit remap over `ℝ`, as used inside `main`. -/
noncomputable def coverUVR (imgAspect canAspect : ℝ) (uv : ℝ × ℝ) : ℝ × ℝ :=
  if imgAspect < canAspect then
    (uv.1, (uv.2 - 1/2) * (imgAspect / canAspect) + 1/2)
  else
    ((uv.1 - 1/2) * (canAspect / imgAspect) + 1/2, uv.2)

/-- `length(coverUV - center)` with `center = (0.5, 0.5)` (lines 119-120). -/
noncomputable def distCenter (p : ℝ × ℝ) : ℝ :=
  Real.sqrt ((p.1 - 0.5) ^ 2 + (p.2 - 0.5) ^ 2)

/-- The distortion vector of `main` (lines 112-126), as a function of the
cover-fit coordinate `cuv`, the shader-local `time` (already scaled by
`u_speed * 0.0003`) and `u_intensity`. -/
noncomputable def distortion (cuv : ℝ × ℝ) (time intensity : ℝ) : ℝ × ℝ :=
  let wave1 := Real.sin (cuv.1 * 6 + time * 0.8) * 0.02 * intensity
  let wave2 := Real.sin (cuv.2 * 4 + time * 0.6) * 0.015 * intensity
  let wave3 := Real.sin ((cuv.1 + cuv.2) * 8 + time * 1.2) * 0.01 * intensity
  let turbulence := fbm (cuv.1 * 3 + time * 0.2, cuv.2 * 3 + time * 0.2) * 0.03 * intensity
  let ripple :=
    Real.sin (distCenter cuv * 20 - time * 1.5) * 0.008 * (1 - distCenter cuv) * intensity
  (wave1 + wave3 + turbulence + ripple, wave2 + wave3 + turbulence * 0.7 + ripple)

/-- An RGBA fragment colour. -/
@[ext] structure Color where
  r : ℝ
  g : ℝ
  b : ℝ
  a : ℝ

/-- `main` (lines 95-135): remap to the cover-fit coordinate, perturb it by
the distortion vector, sample the texture (`tex` stands for `texture2D
u_texture`), then apply the additive modulation `sin(time + coverUV.x *
10) * 0.05 * intensity` and the multiplicative modulation `1 + sin(time *
0.8 + dist * 15) * 0.1 * intensity` to the RGB channels. -/
noncomputable def fragMain (tex : ℝ × ℝ → Color) (texCoord : ℝ × ℝ)
    (u_time u_speed u_intensity u_imageAspect u_canvasAspect : ℝ) : Color :=
  let time := u_time * u_speed * 0.0003
  let cuv := coverUVR u_imageAspect u_canvasAspect texCoord
  let d := distortion cuv time u_intensity
  let color := tex (cuv.1 + d.1, cuv.2 + d.2)
  let dist := distCenter cuv
  let add := Real.sin (time + cuv.1 * 10) * 0.05 * u_intensity
  let mulf := 1 + Real.sin (time * 0.8 + dist * 15) * 0.1 * u_intensity
  { r := (color.r + add) * mulf
    g := (color.g + add) * mulf
    b := (color.b + add) * mulf
    a := color.a }

/-!
## Supporting lemmas for the shader bounds
-/

/-- `fract` agrees with Mathlib's `Int.fract`. -/
theorem fract_eq_intFract (x : ℝ) : fract x = Int.fract x := rfl

/-- GLSL `fract` lies in `[0, 1)`. -/
theorem fract_mem (x : ℝ) : 0 ≤ fract x ∧ fract x < 1 := by
  rw [fract_eq_intFract]
  exact ⟨Int.fract_nonneg x, Int.fract_lt_one x⟩

/-- The lattice hash lies in `[0, 1)`. -/
theorem noise_mem (p : ℝ × ℝ) : 0 ≤ noise p ∧ noise p < 1 :=
  fract_mem _

/-- `|sin| ≤ 1`. -/
theorem abs_sin_le (s : ℝ) : |Real.sin s| ≤ 1 :=
  abs_le.2 ⟨Real.neg_one_le_sin s, Real.sin_le_one s⟩

/-- A convex combination of two values of `[0, 1)` with weight in `[0, 1]`
stays in `[0, 1)`. -/
theorem glslMix_mem {x y a : ℝ} (hx : 0 ≤ x ∧ x < 1) (hy : 0 ≤ y ∧ y < 1)
    (ha : 0 ≤ a ∧ a ≤ 1) : 0 ≤ glslMix x y a ∧ glslMix x y a < 1 := by
  unfold glslMix
  constructor
  · nlinarith [hx.1, hy.1, ha.1, ha.2]
  · rcases lt_or_eq_of_le ha.2 with h1 | h1
    · nlinarith [hx.2, hy.2, ha.1]
    · rw [← h1]; nlinarith [hy.2]

/-- The smoothstep ease maps `[0, 1)` into `[0, 1]`. -/
theorem ease_mem {f : ℝ} (h0 : 0 ≤ f) (h1 : f < 1) :
    0 ≤ f * f * (3 - 2 * f) ∧ f * f * (3 - 2 * f) ≤ 1 := by
  constructor
  · have h3 : 0 ≤ 3 - 2 * f := by linarith
    exact mul_nonneg (mul_nonneg h0 h0) h3
  · nlinarith [sq_nonneg (1 - f), h0]

/-- The interpolated lattice noise lies in `[0, 1)`. -/
theorem smoothNoise_mem (p : ℝ × ℝ) : 0 ≤ smoothNoise p ∧ smoothNoise p < 1 := by
  unfold smoothNoise
  have hex := ease_mem (fract_mem p.1).1 (fract_mem p.1).2
  have hey := ease_mem (fract_mem p.2).1 (fract_mem p.2).2
  exact glslMix_mem (glslMix_mem (noise_mem _) (noise_mem _) hex)
    (glslMix_mem (noise_mem _) (noise_mem _) hex) hey

/-- The 4-octave fbm lies in `[0, 0.9375]` (the octave amplitudes sum to
`0.5 + 0.25 + 0.125 + 0.0625 = 0.9375` and each octave is in `[0, 1)`). -/
theorem fbm_mem (p : ℝ × ℝ) : 0 ≤ fbm p ∧ fbm p ≤ 0.9375 := by
  have e : fbm p =
      0 + 0.5 * smoothNoise (p.1 * 1, p.2 * 1)
        + 0.5 * 0.5 * smoothNoise (p.1 * (1 * 2), p.2 * (1 * 2))
        + 0.5 * 0.5 * 0.5 * smoothNoise (p.1 * (1 * 2 * 2), p.2 * (1 * 2 * 2))
        + 0.5 * 0.5 * 0.5 * 0.5 * smoothNoise (p.1 * (1 * 2 * 2 * 2), p.2 * (1 * 2 * 2 * 2)) :=
    rfl
  have h1 := smoothNoise_mem (p.1 * 1, p.2 * 1)
  have h2 := smoothNoise_mem (p.1 * (1 * 2), p.2 * (1 * 2))
  have h3 := smoothNoise_mem (p.1 * (1 * 2 * 2), p.2 * (1 * 2 * 2))
  have h4 := smoothNoise_mem (p.1 * (1 * 2 * 2 * 2), p.2 * (1 * 2 * 2 * 2))
  rw [e]
  constructor
  · have g1 := h1.1
    have g2 := h2.1
    have g3 := h3.1
    have g4 := h4.1
    norm_num at g1 g2 g3 g4 ⊢
    linarith
  · have g1 := h1.2
    have g2 := h2.2
    have g3 := h3.2
    have g4 := h4.2
    norm_num at g1 g2 g3 g4 ⊢
    linarith

/-- Distance to centre is in `[0, 1]` on the unit square. -/
theorem distCenter_mem {x y : ℝ} (hx0 : 0 ≤ x) (hx1 : x ≤ 1) (hy0 : 0 ≤ y)
    (hy1 : y ≤ 1) : 0 ≤ distCenter (x, y) ∧ distCenter (x, y) ≤ 1 := by
  refine ⟨Real.sqrt_nonneg _, Real.sqrt_le_one.2 ?_⟩
  nlinarith [mul_nonneg hx0 (by linarith : (0:ℝ) ≤ 1 - x),
    mul_nonneg hy0 (by linarith : (0:ℝ) ≤ 1 - y)]

/-- Bound for a sine wave term `sin s * c * I`. -/
theorem sin_term_abs (s : ℝ) {c I : ℝ} (hc : 0 ≤ c) (hI : 0 ≤ I) :
    |Real.sin s * c * I| ≤ c * I := by
  rw [abs_mul, abs_mul, abs_of_nonneg hc, abs_of_nonneg hI]
  calc |Real.sin s| * c * I ≤ 1 * c * I :=
        mul_le_mul_of_nonneg_right (mul_le_mul_of_nonneg_right (abs_sin_le s) hc) hI
    _ = c * I := by ring

/-- Bound for the ripple term `sin s * c * (1 - dv) * I` when `dv ∈ [0,1]`. -/
theorem ripple_term_abs (s : ℝ) {c dv I : ℝ} (hc : 0 ≤ c) (hI : 0 ≤ I)
    (hd0 : 0 ≤ dv) (hd1 : dv ≤ 1) :
    |Real.sin s * c * (1 - dv) * I| ≤ c * I := by
  rw [abs_mul, abs_mul, abs_mul, abs_of_nonneg hc, abs_of_nonneg hI,
    abs_of_nonneg (by linarith : (0:ℝ) ≤ 1 - dv)]
  have hsc : |Real.sin s| * c ≤ 1 * c := mul_le_mul_of_nonneg_right (abs_sin_le s) hc
  have hstep : |Real.sin s| * c * (1 - dv) ≤ 1 * c * 1 :=
    mul_le_mul hsc (by linarith) (by linarith) (by linarith [hc])
  calc |Real.sin s| * c * (1 - dv) * I ≤ 1 * c * 1 * I :=
        mul_le_mul_of_nonneg_right hstep hI
    _ = c * I := by ring

/-- Bound for the turbulence term `v * c * I` when `0 ≤ v ≤ 0.9375`. -/
theorem turb_term_abs {v c I : ℝ} (hv0 : 0 ≤ v) (hv1 : v ≤ 0.9375)
    (hc : 0 ≤ c) (hI : 0 ≤ I) : |v * c * I| ≤ 0.9375 * (c * I) := by
  rw [abs_mul, abs_mul, abs_of_nonneg hv0, abs_of_nonneg hc, abs_of_nonneg hI]
  calc v * c * I ≤ 0.9375 * c * I :=
        mul_le_mul_of_nonneg_right (mul_le_mul_of_nonneg_right hv1 hc) hI
    _ = 0.9375 * (c * I) := by ring

/-!
## The claims
-/

/-- C1.  The claim states that with `durationSeconds = d > 0` the
animation-end notification fires exactly once and no frame is submitted
after `Stopped` is reached.  The code violates this: `stopAnimation`
inside the timer callback sets `isAnimating` to `false`, which gives
`render` — and hence `initializeEffect` and both `useEffect`s — a new
identity, so the restart effect re-runs, re-arms a fresh duration timer,
resets the clock and resumes the frame loop.  Concretely, with
`duration = 1` s and the image loaded at `t = 50` ms, the timer armed for
`t = 1050` fires and delivers `onAnimationEnd` once, but a frame is drawn
at `t = 1050` right after the stop, a frame callback is pending again, a
second duration timer is armed for `t = 2050`, and when it fires
`onAnimationEnd` is delivered a second time. -/
theorem claim1_duration_timer_refires :
    let p : Props := { src := some 7, speed := 1, intensity := 1, duration := some 1 }
    let w1 := run (initWorld p) [(0, Ev.mount), (50, Ev.loadSettle true)]
    let w2 := step w1 1050 (Ev.timerFire 5)
    let w3 := step w2 2050 (Ev.timerFire 10)
    w1.timerRef = some 5 ∧ w1.onAnimationEndCount = 0 ∧ w1.drawEvents = [50, 50] ∧
    w2.onAnimationEndCount = 1 ∧ w2.isAnimating = true ∧
    w2.drawEvents = [50, 50, 1050] ∧ w2.animationRef = some 11 ∧
    w2.pendingTimers = [(10, 2050)] ∧
    w3.onAnimationEndCount = 2 := by
  decide

/-- C2.  The claim states that each restart (triggered by a speed,
intensity or duration change) cancels pending handles before scheduling
new ones and leaves exactly one pending frame handle and at most one
pending duration timer.  The code violates the timer half: a speed change
also re-runs the first `useEffect` (because `initializeEffect` depends on
`render`), which re-invokes `initializeEffect`; when its image load
resolves, lines 343-348 arm a second duration timer without clearing the
one the restart effect armed.  Concretely, with `duration = 1` s, a speed
change at `t = 500` and the re-triggered load resolving at `t = 600`
leave two pending duration timers (fire times 1500 and 1600). -/
theorem claim2_restart_double_timer :
    let p1 : Props := { src := some 7, speed := 1, intensity := 1, duration := some 1 }
    let p2 : Props := { p1 with speed := 2 }
    let w := run (initWorld p1)
      [(0, Ev.mount), (50, Ev.loadSettle true), (500, Ev.propsChange p2),
        (600, Ev.loadSettle true)]
    w.pendingTimers = [(8, 1500), (11, 1600)] ∧ w.pendingTimers.length = 2 ∧
    w.pendingFrames.length = 1 := by
  decide

/-- C3.  The claim states that after unmount no frame callback and no
duration-timer callback ever fires.  The code violates this when an image
load is in flight at unmount: the cleanup cancels the (empty) pending
handles, but the un-guarded `initializeEffect` continuation still runs
when the load resolves, arms a duration timer (and delivers `onLoad`)
after teardown, and that timer's callback — the stop notification — then
fires after teardown.  (No draw happens because the canvas ref is null,
so only the timer half of the claim fails.) -/
theorem claim3_timer_after_unmount :
    let p : Props := { src := some 7, speed := 1, intensity := 1, duration := some 1 }
    let w1 := run (initWorld p) [(0, Ev.mount), (10, Ev.unmount)]
    let w2 := step w1 50 (Ev.loadSettle true)
    let w3 := step w2 1050 (Ev.timerFire 3)
    w1.pendingTimers = [] ∧ w1.pendingFrames = [] ∧ w1.mounted = false ∧
    w2.pendingTimers = [(3, 1050)] ∧ w2.onLoadCount = 1 ∧
    w3.onAnimationEndCount = 1 ∧ w3.drawEvents = [] := by
  decide

/-- C4.  The claim states that replacing the image releases the previous
texture, so at most one texture is live per instance.  The code violates
this: no call site ever invokes `gl.deleteTexture`, so after a `src`
change both the old and the new texture are live in the GL context;
`textureRef` merely points at the newer one. -/
theorem claim4_texture_not_released :
    let pA : Props := { src := some 7, speed := 1, intensity := 1, duration := some 1 }
    let pB : Props := { pA with src := some 8 }
    let w := run (initWorld pA)
      [(0, Ev.mount), (50, Ev.loadSettle true), (100, Ev.propsChange pB),
        (150, Ev.loadSettle true)]
    w.liveTextures = 2 ∧ w.textureRef = some 8 := by
  decide

/-- C5.  The claim states that shader compilation and program linking
happen at most once per GL context and the program is cached, in
particular across `src` changes on the same canvas.  The code violates
this: `initializeEffect` unconditionally calls `initWebGL()` (line 324),
which recompiles both shaders and relinks against the same context
(`canvas.getContext('webgl')` returns the same context object), and the
first `useEffect` re-runs `initializeEffect` on every `src` change.
Concretely, a single `src` change yields a second compile/link pass on
the same live context. -/
theorem claim5_shader_recompiled :
    let pA : Props := { src := some 7, speed := 1, intensity := 1, duration := some 1 }
    let pB : Props := { pA with src := some 8 }
    let w := run (initWorld pA)
      [(0, Ev.mount), (50, Ev.loadSettle true), (100, Ev.propsChange pB),
        (150, Ev.loadSettle true)]
    w.compileCount = 2 ∧ w.glOk = true := by
  decide

/-- C6.  The claim states that each instance owns its own image-aspect
value and never reads a shared global slot.  The code violates this:
line 326 stores the loaded image's aspect in
`window._seaMotionImageAspect` and line 286 reads that same window slot
on every frame of every instance.  Concretely, instance A loads a
200×100 image (aspect 2), then instance B loads a 100×200 image (aspect
1/2); A's next frame reads the slot and renders with B's aspect `1/2`,
not with its own aspect `2`. -/
theorem claim6_shared_global_aspect :
    readGlobalAspect (writeGlobalAspect (writeGlobalAspect none 200 100) 100 200) = 1/2 ∧
    (200 : ℚ) / 100 = 2 ∧
    readGlobalAspect (writeGlobalAspect (writeGlobalAspect none 200 100) 100 200)
      ≠ (200 : ℚ) / 100 := by
  refine ⟨?_, by norm_num, ?_⟩ <;> norm_num [writeGlobalAspect, readGlobalAspect]

/-- C7.  The cover-fit remap scales exactly the axis with excess coverage
about the centre `(1/2, 1/2)`: when the surface (canvas) aspect is less
than the image aspect, `coverUV.x = (uv.x - 1/2) * (canAspect/imgAspect)
+ 1/2` with `y` unchanged; otherwise (`imgAspect ≤ canAspect`) it is the
symmetric `y` formula with `x` unchanged (at equality both branches are
the identity); and concretely `coverUV` of `(0, 1/2)` under image aspect
`2` and surface aspect `1` is `(1/4, 1/2)`. -/
theorem claim7_cover_fit_mapping (img can ux uy : ℚ) (himg : 0 < img) (hcan : 0 < can) :
    (can < img → coverUV img can (ux, uy) = ((ux - 1/2) * (can / img) + 1/2, uy)) ∧
    (img ≤ can → coverUV img can (ux, uy) = (ux, (uy - 1/2) * (img / can) + 1/2)) ∧
    coverUV 2 1 ((0 : ℚ), 1/2) = (1/4, 1/2) := by
  refine ⟨fun h => ?_, fun h => ?_, by norm_num [coverUV]⟩
  · unfold coverUV
    rw [if_neg (not_lt.2 h.le)]
  · unfold coverUV
    rcases lt_or_eq_of_le h with h2 | h2
    · rw [if_pos h2]
    · rw [if_neg (by rw [h2]; exact lt_irrefl can), ← h2, div_self himg.ne']
      simp [Prod.ext_iff]

/-- Witness for C7 at image aspect `2`, surface aspect `1`, `uv = (0, 1/2)`. -/
theorem claim7_cover_fit_mapping_witness :
    (0 : ℚ) < 2 ∧ (0 : ℚ) < 1 ∧ coverUV 2 1 ((0 : ℚ), 1/2) = (1/4, 1/2) :=
  ⟨by norm_num, by norm_num,
    (claim7_cover_fit_mapping 2 1 0 (1/2) (by norm_num) (by norm_num)).2.2⟩

/-- The cover-fit remap maps the unit square into itself whenever both
aspect ratios are positive: the scaled axis is contracted about the
centre by a factor in `(0, 1]`.  This is why the distortion field is only
ever evaluated at points of the unit square (the interpolated
`v_texCoord` lies in `[0,1]^2` by the vertex data of lines 196-201). -/
theorem coverUVR_unit_square {img can ux uy : ℝ} (himg : 0 < img) (hcan : 0 < can)
    (hx0 : 0 ≤ ux) (hx1 : ux ≤ 1) (hy0 : 0 ≤ uy) (hy1 : uy ≤ 1) :
    0 ≤ (coverUVR img can (ux, uy)).1 ∧ (coverUVR img can (ux, uy)).1 ≤ 1 ∧
    0 ≤ (coverUVR img can (ux, uy)).2 ∧ (coverUVR img can (ux, uy)).2 ≤ 1 := by
  unfold coverUVR
  by_cases h : img < can
  · rw [if_pos h]
    have hs0 : 0 < img / can := div_pos himg hcan
    have hs1 : img / can ≤ 1 := (div_le_one hcan).2 h.le
    refine ⟨hx0, hx1, ?_, ?_⟩ <;>
      nlinarith [mul_nonneg hy0 hs0.le, mul_le_mul_of_nonneg_right hy1 hs0.le]
  · rw [if_neg h]
    push_neg at h
    have hs0 : 0 < can / img := div_pos hcan himg
    have hs1 : can / img ≤ 1 := (div_le_one himg).2 h
    refine ⟨?_, ?_, hy0, hy1⟩ <;>
      nlinarith [mul_nonneg hx0 hs0.le, mul_le_mul_of_nonneg_right hx1 hs0.le]

/-- C8.  At `intensity = 0`, for every uv, time and speed, the distortion
vector is `(0, 0)`, and the fragment output equals the unperturbed texture
sample at the cover-fit coordinate (the additive modulation is `+ 0` and
the multiplicative modulation is `* 1`, so both are the identity). -/
theorem claim8_zero_intensity_identity (tex : ℝ × ℝ → Color) (texCoord : ℝ × ℝ)
    (u_time u_speed u_imageAspect u_canvasAspect : ℝ) :
    distortion (coverUVR u_imageAspect u_canvasAspect texCoord)
      (u_time * u_speed * 0.0003) 0 = (0, 0) ∧
    fragMain tex texCoord u_time u_speed 0 u_imageAspect u_canvasAspect =
      tex (coverUVR u_imageAspect u_canvasAspect texCoord) := by
  have hd : ∀ (cuv : ℝ × ℝ) (t : ℝ), distortion cuv t 0 = (0, 0) := by
    intro cuv t
    simp [distortion]
  refine ⟨hd _ _, ?_⟩
  simp [fragMain, hd, mul_zero, add_zero, mul_one]

/-- C9.  When the image load fails, `onError` is invoked exactly once with
the non-empty message `Failed to load image`, no frame loop ever starts
(no draw was submitted and no frame callback or timer is pending), and
the component subsequently renders the error fallback instead of the
animated surface.  This holds for every speed, intensity and duration. -/
theorem claim9_load_failure_fallback (srcId : Nat) (sp it : ℚ) (dur : Option ℤ) :
    let w : World :=
      run (initWorld { src := some srcId, speed := sp, intensity := it, duration := dur })
        [(0, Ev.mount), (50, Ev.loadSettle false)]
    w.onErrorCount = 1 ∧ w.errState = some ErrKind.loadFailed ∧
    errText ErrKind.loadFailed ≠ "" ∧
    w.drawEvents = [] ∧ w.pendingFrames = [] ∧ w.pendingTimers = [] ∧
    w.pendingLoads = [] ∧ w.isLoaded = false ∧
    view w = ViewOut.errorFallback ErrKind.loadFailed :=
  ⟨rfl, rfl, by decide, rfl, rfl, rfl, rfl, rfl, rfl⟩

/-- C10.  For every lattice point the hash `noise` lies in `[0, 1)`, the
interpolated `smoothNoise` lies in `[0, 1)`, and the 4-octave `fbm` lies
in `[0, 0.9375]`; consequently, for every uv in the unit square (the
interpolated texture coordinate, and hence the cover-fit coordinate the
shader evaluates the field at, always lies there), every time, every
speed and every `intensity ≥ 0`, each component of the distortion vector
has magnitude at most `0.07 * intensity`. -/
theorem claim10_noise_and_distortion_bounds (p : ℝ × ℝ) (ux uy u_time u_speed intensity : ℝ) :
    (0 ≤ noise p ∧ noise p < 1) ∧
    (0 ≤ smoothNoise p ∧ smoothNoise p < 1) ∧
    (0 ≤ fbm p ∧ fbm p ≤ 0.9375) ∧
    (0 ≤ ux → ux ≤ 1 → 0 ≤ uy → uy ≤ 1 → 0 ≤ intensity →
      |(distortion (ux, uy) (u_time * u_speed * 0.0003) intensity).1| ≤ 0.07 * intensity ∧
      |(distortion (ux, uy) (u_time * u_speed * 0.0003) intensity).2| ≤ 0.07 * intensity) := by
  refine ⟨noise_mem p, smoothNoise_mem p, fbm_mem p, ?_⟩
  intro hx0 hx1 hy0 hy1 hI
  have hdist := distCenter_mem hx0 hx1 hy0 hy1
  set t := u_time * u_speed * 0.0003 with ht
  have hw1 := sin_term_abs (ux * 6 + t * 0.8) (by norm_num : (0:ℝ) ≤ 0.02) hI
  have hw2 := sin_term_abs (uy * 4 + t * 0.6) (by norm_num : (0:ℝ) ≤ 0.015) hI
  have hw3 := sin_term_abs ((ux + uy) * 8 + t * 1.2) (by norm_num : (0:ℝ) ≤ 0.01) hI
  have hfb := fbm_mem (ux * 3 + t * 0.2, uy * 3 + t * 0.2)
  have htb := turb_term_abs hfb.1 hfb.2 (by norm_num : (0:ℝ) ≤ 0.03) hI
  have hrp := ripple_term_abs (distCenter (ux, uy) * 20 - t * 1.5)
    (by norm_num : (0:ℝ) ≤ 0.008) hI hdist.1 hdist.2
  constructor
  · have e1 : (distortion (ux, uy) t intensity).1 =
        Real.sin (ux * 6 + t * 0.8) * 0.02 * intensity
          + Real.sin ((ux + uy) * 8 + t * 1.2) * 0.01 * intensity
          + fbm (ux * 3 + t * 0.2, uy * 3 + t * 0.2) * 0.03 * intensity
          + Real.sin (distCenter (ux, uy) * 20 - t * 1.5) * 0.008
              * (1 - distCenter (ux, uy)) * intensity := rfl
    rw [e1]
    have tri := abs_add_three
      (Real.sin (ux * 6 + t * 0.8) * 0.02 * intensity)
      (Real.sin ((ux + uy) * 8 + t * 1.2) * 0.01 * intensity)
      (fbm (ux * 3 + t * 0.2, uy * 3 + t * 0.2) * 0.03 * intensity)
    have tri2 := abs_add
      (Real.sin (ux * 6 + t * 0.8) * 0.02 * intensity
        + Real.sin ((ux + uy) * 8 + t * 1.2) * 0.01 * intensity
        + fbm (ux * 3 + t * 0.2, uy * 3 + t * 0.2) * 0.03 * intensity)
      (Real.sin (distCenter (ux, uy) * 20 - t * 1.5) * 0.008
        * (1 - distCenter (ux, uy)) * intensity)
    nlinarith [hw1, hw3, htb, hrp, tri, tri2]
  · have e2 : (distortion (ux, uy) t intensity).2 =
        Real.sin (uy * 4 + t * 0.6) * 0.015 * intensity
          + Real.sin ((ux + uy) * 8 + t * 1.2) * 0.01 * intensity
          + fbm (ux * 3 + t * 0.2, uy * 3 + t * 0.2) * 0.03 * intensity * 0.7
          + Real.sin (distCenter (ux, uy) * 20 - t * 1.5) * 0.008
              * (1 - distCenter (ux, uy)) * intensity := rfl
    rw [e2]
    have htb7 : |fbm (ux * 3 + t * 0.2, uy * 3 + t * 0.2) * 0.03 * intensity * 0.7|
        ≤ 0.9375 * (0.03 * intensity) * 0.7 := by
      rw [abs_mul]
      have h7 : |(0.7:ℝ)| = 0.7 := by norm_num
      rw [h7]
      exact mul_le_mul_of_nonneg_right htb (by norm_num)
    have tri := abs_add_three
      (Real.sin (uy * 4 + t * 0.6) * 0.015 * intensity)
      (Real.sin ((ux + uy) * 8 + t * 1.2) * 0.01 * intensity)
      (fbm (ux * 3 + t * 0.2, uy * 3 + t * 0.2) * 0.03 * intensity * 0.7)
    have tri2 := abs_add
      (Real.sin (uy * 4 + t * 0.6) * 0.015 * intensity
        + Real.sin ((ux + uy) * 8 + t * 1.2) * 0.01 * intensity
        + fbm (ux * 3 + t * 0.2, uy * 3 + t * 0.2) * 0.03 * intensity * 0.7)
      (Real.sin (distCenter (ux, uy) * 20 - t * 1.5) * 0.008
        * (1 - distCenter (ux, uy)) * intensity)
    nlinarith [hw2, hw3, htb7, hrp, tri, tri2]

/-- Witness for C10 at `p = (0, 0)`, `uv = (1/2, 1/2)`, `time = speed = 0`,
`intensity = 1`. -/
theorem claim10_noise_and_distortion_bounds_witness :
    (0 ≤ noise ((0 : ℝ), (0 : ℝ)) ∧ noise ((0 : ℝ), (0 : ℝ)) < 1) ∧
    (|(distortion ((1/2 : ℝ), (1/2 : ℝ)) ((0 : ℝ) * 0 * 0.0003) 1).1| ≤ 0.07 * 1 ∧
      |(distortion ((1/2 : ℝ), (1/2 : ℝ)) ((0 : ℝ) * 0 * 0.0003) 1).2| ≤ 0.07 * 1) := by
  have h := claim10_noise_and_distortion_bounds ((0 : ℝ), (0 : ℝ)) (1/2) (1/2) 0 0 1
  exact ⟨h.1, h.2.2.2 (by norm_num) (by norm_num) (by norm_num) (by norm_num) (by norm_num)⟩
